import Mathlib

/-!
Shallow embedding of the lidar core of `main.py` (rosbag point-cloud extractor).

The embedded routines are, following the source:
  * `polar_to_cartesian` — module-level helper (main.py lines 28-33);
  * `loadCalibration` — the calibration extraction of `export_pointclouds`
    (lines 99-100): skip 8 bytes, UTF-8 decode, `np.genfromtxt` with
    `delimiter=","` and `skip_header=1`;
  * `raw_hesai_to_cartesian` (lines 121-155) — per-packet reconstruction,
    including the `return` statement that sits inside the block `for` loop;
  * `export_pointclouds_msg` — the per-scan-message body of
    `export_pointclouds` (lines 93-119), with file I/O elided.

Machine floats are idealised as real numbers; raw integer fields are `ℕ`,
decoded text fields are `ℚ`.
-/

/-- Result of `np.genfromtxt`'s per-field conversion: a finite value or NaN
(unconvertible fields become NaN, they do not raise). A finite value is kept
in exact decimal form `mantissa · 10 ^ exp10` (machine floats idealised);
`valReal` below interprets it in `ℝ`. IEEE NaN has no counterpart in `ℝ`; it
is mapped to `0` by `valReal`, and no property in this development depends on
that case. -/
inductive Val where
  | num (mantissa : ℤ) (exp10 : ℤ)
  | nan
  deriving DecidableEq

/-- Errors of the pipeline, named after the spec's taxonomy.
`calibrationFormat` covers the Python `UnicodeDecodeError` of line 99 and the
`ValueError` that `np.genfromtxt` raises on inconsistent row widths;
`malformedPacket` is the decode failure of `HesaiPandar64Packets.from_bytes`;
`indexError` is a numpy/list indexing failure (e.g. `packets[-1]` on an empty
list, or `calibration_array[:, 2]` on an array without 3 columns);
`noneUnpack` is the `TypeError` the caller would hit unpacking a `None`
returned by `raw_hesai_to_cartesian`. -/
inductive PipelineError where
  | malformedPacket
  | calibrationFormat
  | indexError
  | noneUnpack
  deriving DecidableEq

/-- One channel reading inside a firing block: raw distance (integer,
millimeters) and reflectance, as exposed by the packet DTO. -/
structure ChannelReading where
  distance_value : ℕ
  reflectance_value : ℕ
  deriving DecidableEq

/-- One firing block of the packet DTO: measured azimuth in degrees and the
per-channel readings (field names follow the DTO used by main.py). -/
structure FiringBlock where
  azimuth_deg : ℚ
  channel : List ChannelReading
  deriving DecidableEq

/-- Trailing metadata segment of the packet DTO; only `return_mode` is read
by main.py (line 130). -/
structure PacketTail where
  return_mode : ℕ
  deriving DecidableEq

/-- The decoded UDP packet DTO (class name from the source's
`hesai_pandar_64_packets` import): firing blocks plus tail metadata. -/
structure HesaiPandar64Packets where
  blocks : List FiringBlock
  tail : PacketTail
  deriving DecidableEq

deriving instance DecidableEq for Except

/-- Modelled from the spec: the binary Packet Codec
(`hesai_pandar_64_packets`, imported by main.py but not part of src/) decodes
a fixed-layout blob into the DTO, or fails with `MalformedPacketError` when
the blob is shorter than the fixed expected length. A `RawPacket` is
therefore modelled by its two observable views: the outcome of decoding it as
a firing-data packet, and its raw bytes (the latter only read for the
trailing calibration payload, line 99). -/
structure RawPacket where
  decodeResult : Except PipelineError HesaiPandar64Packets
  data : List Nat
  deriving DecidableEq

/-- Decode of one UDP packet into the DTO (`HesaiPandar64Packets.from_bytes`
in main.py line 123); modelled from the spec via `RawPacket.decodeResult`. -/
def HesaiPandar64Packets.from_bytes (p : RawPacket) : Except PipelineError HesaiPandar64Packets :=
  p.decodeResult

/-- Decode one UTF-8 encoded code point from a byte list, strictly (RFC
3629): continuation bytes checked, overlong forms, surrogates and values
above 0x10FFFF rejected — matching Python's `bytes.decode('utf-8')`.
Returns the code point and the remaining bytes. -/
def utf8DecodeOne : List Nat → Option (Nat × List Nat)
  | [] => none
  | b :: rest =>
    if b < 0x80 then some (b, rest)
    else if b < 0xC2 then none
    else if b ≤ 0xDF then
      match rest with
      | b2 :: rest2 =>
        if 0x80 ≤ b2 && b2 ≤ 0xBF then some ((b - 0xC0) * 0x40 + (b2 - 0x80), rest2) else none
      | [] => none
    else if b ≤ 0xEF then
      match rest with
      | b2 :: b3 :: rest3 =>
        if (if b = 0xE0 then 0xA0 ≤ b2 && b2 ≤ 0xBF
            else if b = 0xED then 0x80 ≤ b2 && b2 ≤ 0x9F
            else 0x80 ≤ b2 && b2 ≤ 0xBF) && (0x80 ≤ b3 && b3 ≤ 0xBF) then
          some ((b - 0xE0) * 0x1000 + (b2 - 0x80) * 0x40 + (b3 - 0x80), rest3)
        else none
      | _ => none
    else if b ≤ 0xF4 then
      match rest with
      | b2 :: b3 :: b4 :: rest4 =>
        if (if b = 0xF0 then 0x90 ≤ b2 && b2 ≤ 0xBF
            else if b = 0xF4 then 0x80 ≤ b2 && b2 ≤ 0x8F
            else 0x80 ≤ b2 && b2 ≤ 0xBF) && (0x80 ≤ b3 && b3 ≤ 0xBF)
            && (0x80 ≤ b4 && b4 ≤ 0xBF) then
          some ((b - 0xF0) * 0x40000 + (b2 - 0x80) * 0x1000 + (b3 - 0x80) * 0x40 + (b4 - 0x80),
            rest4)
        else none
      | _ => none
    else none

/-- Fuel-driven decoding loop; each successful `utf8DecodeOne` step consumes
at least one byte, so fuel equal to the byte count never runs out. -/
def utf8DecodeLoop : Nat → List Nat → Option (List Char)
  | _, [] => some []
  | 0, _ :: _ => none
  | fuel + 1, bytes =>
    match utf8DecodeOne bytes with
    | none => none
    | some (cp, rest) => (utf8DecodeLoop fuel rest).map (fun cs => Char.ofNat cp :: cs)

/-- Strict UTF-8 decoding of a byte list, `none` exactly when Python's
`bytes.decode('utf-8')` would raise `UnicodeDecodeError`. -/
def utf8Decode (bytes : List Nat) : Option (List Char) :=
  utf8DecodeLoop bytes.length bytes

/-- Split a character list at every occurrence of `sep`, like Python's
`str.split(sep)`; the result is always nonempty. -/
def splitOnChar (sep : Char) : List Char → List (List Char)
  | [] => [[]]
  | c :: rest =>
    let r := splitOnChar sep rest
    if c = sep then [] :: r
    else
      match r with
      | [] => [[c]]
      | h :: t => (c :: h) :: t

def isDigitChar (c : Char) : Bool := '0' ≤ c && c ≤ '9'

def isSpaceChar (c : Char) : Bool := c = ' ' || c = '\t' || c = '\r' || c = '\n'

def digitsToNat (l : List Char) : Nat :=
  l.foldl (fun a c => a * 10 + (c.toNat - 48)) 0

/-- Strip leading and trailing whitespace, as Python's `float()` does before
conversion. -/
def stripSpaces (l : List Char) : List Char :=
  ((l.dropWhile isSpaceChar).reverse.dropWhile isSpaceChar).reverse

/-- Parse an unsigned decimal mantissa (`123`, `1.5`, `.5`, `7.`); returns
the digit value (integer and fraction digits run together), the number of
fraction digits, and the unconsumed suffix, so that the parsed value is
`digits · 10 ^ (-fracLen)`. -/
def parseMantissa (l : List Char) : Option (ℕ × ℕ × List Char) :=
  let intDigits := l.takeWhile isDigitChar
  let rest1 := l.dropWhile isDigitChar
  match rest1 with
  | '.' :: rest2 =>
    let fracDigits := rest2.takeWhile isDigitChar
    let rest3 := rest2.dropWhile isDigitChar
    if intDigits.isEmpty && fracDigits.isEmpty then none
    else some (digitsToNat (intDigits ++ fracDigits), fracDigits.length, rest3)
  | _ => if intDigits.isEmpty then none else some (digitsToNat intDigits, 0, rest1)

/-- Model of the float conversion `np.genfromtxt` applies to each field:
Python `float()` on the stripped field, with a conversion failure yielding
NaN rather than an error. Accepts an optional sign, a decimal mantissa and an
optional exponent. -/
def parseFloat (l0 : List Char) : Val :=
  let l := stripSpaces l0
  let signAndRest : ℤ × List Char :=
    match l with
    | '-' :: r => (-1, r)
    | '+' :: r => (1, r)
    | _ => (1, l)
  match parseMantissa signAndRest.2 with
  | none => Val.nan
  | some (m, f, rest) =>
    match rest with
    | [] => Val.num (signAndRest.1 * (m : ℤ)) (-(f : ℤ))
    | e :: r2 =>
      if e = 'e' || e = 'E' then
        let esignAndRest : ℤ × List Char :=
          match r2 with
          | '-' :: r => (-1, r)
          | '+' :: r => (1, r)
          | _ => (1, r2)
        let eds := esignAndRest.2.takeWhile isDigitChar
        let r4 := esignAndRest.2.dropWhile isDigitChar
        if eds.isEmpty || !r4.isEmpty then Val.nan
        else Val.num (signAndRest.1 * (m : ℤ))
          (esignAndRest.1 * (digitsToNat eds : ℤ) - (f : ℤ))
      else Val.nan

/-- Everything after a `#` is a comment for `np.genfromtxt` (its default
`comments='#'`). -/
def stripComment (l : List Char) : List Char := l.takeWhile (fun c => c != '#')

def isBlankLine (l : List Char) : Bool := l.all isSpaceChar

/-- The data lines `np.genfromtxt` will parse: raw lines of the text, the
first skipped (`skip_header=1`), comments stripped, blank lines dropped. -/
def genfromtxtRows (text : List Char) : List (List Char) :=
  (((splitOnChar '\n' text).drop 1).map stripComment).filter (fun l => !(isBlankLine l))

/-- Model of `np.genfromtxt(..., delimiter=",", skip_header=1)` (line 100):
each data line is split on commas and converted field-wise; a row whose field
count differs from the first row's raises `ValueError` (mapped to
`calibrationFormat`). Note it does NOT require any minimum field count. -/
def genfromtxtTable (text : List Char) : Except PipelineError (List (List Val)) :=
  let rows := (genfromtxtRows text).map (fun line => (splitOnChar ',' line).map parseFloat)
  match rows with
  | [] => .ok []
  | r0 :: rest =>
    if rest.all (fun r => r.length == r0.length) then .ok (r0 :: rest)
    else .error .calibrationFormat

/-- Calibration extraction of `export_pointclouds` (lines 99-100):
`msg.packets[-1].data[8:].decode('utf-8')` followed by `np.genfromtxt`. -/
def loadCalibration (data : List Nat) : Except PipelineError (List (List Val)) :=
  match utf8Decode (data.drop 8) with
  | none => .error .calibrationFormat
  | some text => genfromtxtTable text

/-- Helper for `everyNth`: keep the element when the skip counter is 0 and
reset it to `step - 1`, otherwise decrement it. -/
def everyNthAux (step : ℕ) : List α → ℕ → List α
  | [], _ => []
  | x :: rest, 0 => x :: everyNthAux step rest (step - 1)
  | _ :: rest, k + 1 => everyNthAux step rest k

/-- Elements of `l` at indices `0, step, 2*step, ...` — the semantics of the
Python slice `l[::step]` for `step ≥ 1` (the source only uses steps 1 and 2). -/
def everyNth (step : ℕ) (l : List α) : List α := everyNthAux step l 0

/-- Python slice `l[start::step]`. -/
def pySlice (start step : ℕ) (l : List α) : List α := everyNth step (l.drop start)

/-- Block selection of `raw_hesai_to_cartesian` (lines 129-138): return mode
57 (dual return) iterates `blocks[1::2]`, any other mode iterates
`blocks[0::1]`. -/
def selectBlocks (return_mode : ℕ) (blocks : List FiringBlock) : List FiringBlock :=
  if return_mode = 57 then pySlice 1 2 blocks else pySlice 0 1 blocks

/-- Numpy boolean-mask indexing `a[mask]`: keep the entries of `a` whose mask
position is `true`. (Numpy requires the mask length to equal the array
length; the reconstruction theorems below carry that as a hypothesis.) -/
def applyMask : List Bool → List α → List α
  | [], _ => []
  | _, [] => []
  | b :: ms, x :: xs => if b then x :: applyMask ms xs else applyMask ms xs

/-- Conversion `np.deg2rad`: multiply by π/180. -/
noncomputable def deg2rad (x : ℝ) : ℝ := x * (Real.pi / 180)

/-- Value of a parsed calibration field as a real number (see `Val`). -/
noncomputable def valReal : Val → ℝ
  | .num m e => (m : ℝ) * (10 : ℝ) ^ (e : ℤ)
  | .nan => 0

/-- Module-level helper of main.py (lines 28-33): spherical-to-Cartesian
conversion with the elevation flipped to be measured from the zenith. -/
noncomputable def polar_to_cartesian (azimuth elevation distance : ℝ) : ℝ × ℝ × ℝ :=
  let e := Real.pi / 2 - elevation
  (distance * Real.sin e * Real.cos azimuth,
   distance * Real.sin e * Real.sin azimuth,
   distance * Real.cos e)

/-- Per-channel elevation angles computed from the calibration array
(line 126): `(π/2) - deg2rad(calibration_array[:, 1])`. -/
noncomputable def elevationArray (calibration_array : List (List Val)) : List ℝ :=
  calibration_array.map (fun row => Real.pi / 2 - deg2rad (valReal (row.getD 1 .nan)))

/-- Per-channel azimuth offsets computed from the calibration array
(line 127): `deg2rad(calibration_array[:, 2])`. -/
noncomputable def azimuthOffsetArray (calibration_array : List (List Val)) : List ℝ :=
  calibration_array.map (fun row => deg2rad (valReal (row.getD 2 .nan)))

/-- Body of the block loop of `raw_hesai_to_cartesian` (lines 139-155): mask
out zero-distance channels, convert the rest to Cartesian points, and pair
them with the masked reflectances. -/
noncomputable def processBlock (elevation_array azimuth_offset_array : List ℝ)
    (block : FiringBlock) : List (ℝ × ℝ × ℝ) × List ℕ :=
  let azimuth_rad := deg2rad ((block.azimuth_deg : ℚ) : ℝ)
  let azimuth_array := azimuth_offset_array.map (fun x => x + azimuth_rad)
  let distance_array := block.channel.map (fun c => ((c.distance_value : ℕ) : ℝ) / 1000)
  let reflectance_array := block.channel.map (fun c => c.reflectance_value)
  let valid_value_mask := block.channel.map (fun c => c.distance_value != 0)
  let x_array := List.zipWith3 (fun d e a => d * Real.sin e * Real.cos a)
      (applyMask valid_value_mask distance_array) (applyMask valid_value_mask elevation_array)
      (applyMask valid_value_mask azimuth_array)
  let y_array := List.zipWith3 (fun d e a => d * Real.sin e * Real.sin a)
      (applyMask valid_value_mask distance_array) (applyMask valid_value_mask elevation_array)
      (applyMask valid_value_mask azimuth_array)
  let z_array := List.zipWith (fun d e => d * Real.cos e)
      (applyMask valid_value_mask distance_array) (applyMask valid_value_mask elevation_array)
  (List.zipWith3 (fun x y z => (x, y, z)) x_array y_array z_array,
   applyMask valid_value_mask reflectance_array)

/-- Per-packet reconstruction `raw_hesai_to_cartesian` (lines 121-155).
Faithful to the source's control flow: the `return` statement sits INSIDE the
block `for` loop, so the function returns the points of the FIRST selected
block (or `None` — here `Option.none` — when the selection is empty and the
loop body never runs). The guard mirrors the numpy indexing
`calibration_array[:, 1]` / `[:, 2]` (lines 126-127), which needs a 2-D array
(at least two parsed rows) with at least 3 columns, and the boolean-mask
indexing of lines 151-153, which needs the mask length (the block's channel
count) to equal the calibration length; otherwise numpy raises `IndexError`. -/
noncomputable def raw_hesai_to_cartesian (calibration_array : List (List Val))
    (packet : RawPacket) : Except PipelineError (Option (List (ℝ × ℝ × ℝ) × List ℕ)) :=
  match HesaiPandar64Packets.from_bytes packet with
  | .error e => .error e
  | .ok hesai_udp_dto =>
    if 2 ≤ calibration_array.length ∧ ∀ row ∈ calibration_array, 3 ≤ row.length then
      match selectBlocks hesai_udp_dto.tail.return_mode hesai_udp_dto.blocks with
      | [] => .ok none
      | block :: _ =>
        if block.channel.length = calibration_array.length then
          .ok (some (processBlock (elevationArray calibration_array)
            (azimuthOffsetArray calibration_array) block))
        else .error .indexError
    else .error .indexError

/-- Warnings emitted by `raw_hesai_to_cartesian`: the source flags none (the
`warnings` module is used only in `export_1d_data`), in particular no warning
for an unrecognised return-mode marker, so the warning stream is empty. -/
def rawHesaiWarnings (_calibration_array : List (List Val)) (_packet : RawPacket) :
    List String := []

/-- The packet accumulation loop of `export_pointclouds` (lines 102-108):
process each leading packet and concatenate its points and reflectances onto
the growing arrays. A packet-decode failure propagates (the source has no
try/except, so the exception aborts the whole scan message), and a `None`
from `raw_hesai_to_cartesian` aborts with the `TypeError` of the tuple
unpacking at line 104. -/
noncomputable def processPackets (calibration_array : List (List Val)) :
    List RawPacket → List (ℝ × ℝ × ℝ) × List ℕ →
      Except PipelineError (List (ℝ × ℝ × ℝ) × List ℕ)
  | [], acc => .ok acc
  | p :: rest, acc =>
    match raw_hesai_to_cartesian calibration_array p with
    | .error e => .error e
    | .ok none => .error .noneUnpack
    | .ok (some pr) =>
      processPackets calibration_array rest (acc.1 ++ pr.1, acc.2 ++ pr.2)

/-- Per-scan-message body of `export_pointclouds` (lines 93-119), file I/O
elided: load the calibration table from the last packet's payload, then run
the accumulation loop over all leading packets (`msg.packets[:-1]`), starting
from empty arrays. An `.ok` result is the scan message reaching the spec's
`Assembled` state. -/
noncomputable def export_pointclouds_msg (packets : List RawPacket) :
    Except PipelineError (List (ℝ × ℝ × ℝ) × List ℕ) :=
  match packets.getLast? with
  | none => .error .indexError
  | some lastPacket =>
    match loadCalibration lastPacket.data with
    | .error e => .error e
    | .ok calibration_array => processPackets calibration_array packets.dropLast ([], [])

/-- Concrete six-block packet body used to check the Resolver's cardinality
contract. -/
def sixBlocks : List FiringBlock :=
  [⟨0, []⟩, ⟨1, []⟩, ⟨2, []⟩, ⟨3, []⟩, ⟨4, []⟩, ⟨5, []⟩]

/-- Concrete two-row calibration table (channel 0: elevation 0°, offset 0°;
channel 1: elevation 1°, offset 0°). -/
def calibTwoRows : List (List Val) :=
  [[Val.num 0 0, Val.num 0 0, Val.num 0 0], [Val.num 1 0, Val.num 1 0, Val.num 0 0]]

/-- Concrete dual-return packet with a single block: its odd-index selection
is empty. -/
def dualOneBlockDto : HesaiPandar64Packets := ⟨[⟨10, [⟨1000, 3⟩, ⟨2000, 4⟩]⟩], ⟨57⟩⟩

def dualOneBlockPkt : RawPacket := ⟨.ok dualOneBlockDto, []⟩

/-- Concrete packet whose return-mode marker 99 is neither a Single nor the
Dual (57) value. -/
def dtoC7 : HesaiPandar64Packets :=
  ⟨[⟨10, [⟨1000, 3⟩, ⟨0, 4⟩]⟩, ⟨20, [⟨500, 5⟩, ⟨600, 6⟩]⟩], ⟨99⟩⟩

def pktC7 : RawPacket := ⟨.ok dtoC7, []⟩

/-- Calibration payload whose data rows all have exactly 2 comma-separated
fields (uniform, hence accepted by `np.genfromtxt`). -/
def shortRowsPayload : List Nat :=
  [0, 0, 0, 0, 0, 0, 0, 0] ++ ("h\n1,2\n3,4").toList.map Char.toNat

/-- Calibration payload whose ninth byte 0xFF is not valid UTF-8. -/
def badUtf8Payload : List Nat := [0, 0, 0, 0, 0, 0, 0, 0, 255]

/-- Concrete well-formed calibration payload and its parsed table, for the
determinism witness. -/
def calibPayloadC9 : List Nat :=
  [0, 0, 0, 0, 0, 0, 0, 0] ++ ("h\n7,8,9\n1,2,3").toList.map Char.toNat

def tableC9 : List (List Val) :=
  [[Val.num 7 0, Val.num 8 0, Val.num 9 0], [Val.num 1 0, Val.num 2 0, Val.num 3 0]]

/-- Concrete valid single-return data packet for the malformed-packet
scenario. -/
def goodDtoC5 : HesaiPandar64Packets := ⟨[⟨0, [⟨1000, 7⟩, ⟨2000, 8⟩]⟩], ⟨55⟩⟩

def goodPktC5 : RawPacket := ⟨.ok goodDtoC5, []⟩

/-- Concrete packet whose binary decode fails (e.g. truncated). -/
def malformedPktC5 : RawPacket := ⟨.error .malformedPacket, []⟩

/-- Trailing calibration packet of the malformed-packet scenario (its own
decode result is irrelevant: only its bytes are read). -/
def calibPktC5 : RawPacket :=
  ⟨.error .malformedPacket,
    [0, 0, 0, 0, 0, 0, 0, 0] ++ ("h\n0,0,0\n1,1,0").toList.map Char.toNat⟩

/-- Scan message: malformed packet, then a valid packet, then the
calibration packet. -/
def scanC5 : List RawPacket := [malformedPktC5, goodPktC5, calibPktC5]

/-- Concrete dual-return packet with 4 blocks of azimuths 10, 10, 20, 20 and
two nonzero channels per block; reflectances tag which block a point came
from (block index 1 carries 11, 12; block index 3 carries 31, 32). -/
def dtoC1 : HesaiPandar64Packets :=
  ⟨[⟨10, [⟨1000, 1⟩, ⟨2000, 2⟩]⟩, ⟨10, [⟨1000, 11⟩, ⟨2000, 12⟩]⟩,
    ⟨20, [⟨1000, 21⟩, ⟨2000, 22⟩]⟩, ⟨20, [⟨1000, 31⟩, ⟨2000, 32⟩]⟩], ⟨57⟩⟩

def pktC1 : RawPacket := ⟨.ok dtoC1, []⟩

/-- Concrete single-return packet with one block at azimuth 0° and channel
distances (1000 mm, 0 mm), reflectances (77, 99). -/
def dtoC2 : HesaiPandar64Packets := ⟨[⟨0, [⟨1000, 77⟩, ⟨0, 99⟩]⟩], ⟨55⟩⟩

def dataPktC2 : RawPacket := ⟨.ok dtoC2, []⟩

/-- Trailing calibration packet for the end-to-end scenario: header line plus
rows (0°, 0°) and (10°, 0°). -/
def calibPktC2 : RawPacket :=
  ⟨.error .malformedPacket,
    [0, 0, 0, 0, 0, 0, 0, 0]
      ++ ("channel,elevation,azimuth\n0,0,0\n1,10,0").toList.map Char.toNat⟩

/-- End-to-end scan message: one data packet plus the calibration packet. -/
def scanC2 : List RawPacket := [dataPktC2, calibPktC2]

/-- The parsed calibration table of `calibPktC2`. -/
def tableC2 : List (List Val) :=
  [[Val.num 0 0, Val.num 0 0, Val.num 0 0], [Val.num 1 0, Val.num 10 0, Val.num 0 0]]

/-- Concrete firing block with one nonzero-distance and one zero-distance
channel. -/
def blockC3 : FiringBlock := ⟨0, [⟨1000, 1⟩, ⟨0, 2⟩]⟩

/-- Step-1 slicing keeps every element: `l[0::1] = l`. -/
theorem everyNthAux_one (l : List α) : everyNthAux 1 l 0 = l := by
  induction l with
  | nil => rfl
  | cons x rest ih => simp [everyNthAux, ih]

/-- Joint length computation for step-2 slicing at skip counters 0 and 1. -/
theorem everyNthAux_two_length (l : List α) :
    (everyNthAux 2 l 0).length = (l.length + 1) / 2 ∧
      (everyNthAux 2 l 1).length = l.length / 2 := by
  induction l with
  | nil => simp [everyNthAux]
  | cons x rest ih =>
    constructor
    · simp only [everyNthAux, List.length_cons, ih.2]
      omega
    · simp only [everyNthAux, List.length_cons, ih.1]

/-- Joint index computation for step-2 slicing at skip counters 0 and 1: the
kept elements are those at even (resp. odd) indices. -/
theorem everyNthAux_two_get (l : List α) :
    (∀ i, (everyNthAux 2 l 0).get? i = l.get? (2 * i)) ∧
      (∀ i, (everyNthAux 2 l 1).get? i = l.get? (2 * i + 1)) := by
  induction l with
  | nil => simp [everyNthAux]
  | cons x rest ih =>
    constructor
    · intro i
      match i with
      | 0 => simp [everyNthAux]
      | i + 1 =>
        have h2 : 2 * (i + 1) = (2 * i + 1) + 1 := by omega
        simp only [everyNthAux, List.get?_cons_succ, h2]
        exact ih.2 i
    · intro i
      have h2 : 2 * i + 1 = (2 * i) + 1 := rfl
      simp only [everyNthAux, h2, List.get?_cons_succ]
      exact ih.1 i

/-- Any non-57 return mode selects every block, in order. -/
theorem selectBlocks_not57 {m : ℕ} (h : m ≠ 57) (blocks : List FiringBlock) :
    selectBlocks m blocks = blocks := by
  simp [selectBlocks, h, pySlice, everyNth, everyNthAux_one]

/-- Dual-return selection halves the block count (floor division). -/
theorem selectBlocks_57_length (blocks : List FiringBlock) :
    (selectBlocks 57 blocks).length = blocks.length / 2 := by
  unfold selectBlocks
  rw [if_pos rfl]
  unfold pySlice everyNth
  rw [(everyNthAux_two_length (blocks.drop 1)).1, List.length_drop]
  omega

/-- The `i`-th dual-return-selected block is the block at odd index
`2*i + 1` of the packet. -/
theorem selectBlocks_57_get (blocks : List FiringBlock) (i : ℕ) :
    (selectBlocks 57 blocks).get? i = blocks.get? (2 * i + 1) := by
  unfold selectBlocks
  rw [if_pos rfl]
  unfold pySlice everyNth
  rw [(everyNthAux_two_get (blocks.drop 1)).1 i, List.get?_drop]
  congr 1
  omega

/-- Masking two maps over the same list by a predicate on that list is
filtering then mapping. -/
theorem applyMask_map_map {α β : Type} (p : α → Bool) (f : α → β) (l : List α) :
    applyMask (l.map p) (l.map f) = (l.filter p).map f := by
  induction l with
  | nil => rfl
  | cons x rest ih =>
    cases hp : p x <;> simp [applyMask, List.filter_cons, hp, ih]

/-- Characterisation of the masked, zipped point construction of
`processBlock`: with aligned lengths it equals a filter of the per-channel
triples (channel reading, elevation, azimuth) followed by the Cartesian map.
In particular every constructed point stems from a channel that survived the
zero-distance mask. -/
theorem masked_points_char (Fx Fy : ℝ → ℝ → ℝ → ℝ) (Fz : ℝ → ℝ → ℝ) :
    ∀ (chs : List ChannelReading) (e a : List ℝ),
      e.length = chs.length → a.length = chs.length →
      List.zipWith3 (fun x y z => (x, y, z))
        (List.zipWith3 Fx
          (applyMask (chs.map (fun c => c.distance_value != 0))
            (chs.map (fun c => ((c.distance_value : ℕ) : ℝ) / 1000)))
          (applyMask (chs.map (fun c => c.distance_value != 0)) e)
          (applyMask (chs.map (fun c => c.distance_value != 0)) a))
        (List.zipWith3 Fy
          (applyMask (chs.map (fun c => c.distance_value != 0))
            (chs.map (fun c => ((c.distance_value : ℕ) : ℝ) / 1000)))
          (applyMask (chs.map (fun c => c.distance_value != 0)) e)
          (applyMask (chs.map (fun c => c.distance_value != 0)) a))
        (List.zipWith Fz
          (applyMask (chs.map (fun c => c.distance_value != 0))
            (chs.map (fun c => ((c.distance_value : ℕ) : ℝ) / 1000)))
          (applyMask (chs.map (fun c => c.distance_value != 0)) e))
      = ((List.zipWith3 (fun c x y => (c, x, y)) chs e a).filter
            (fun t => t.1.distance_value != 0)).map
          (fun t => (Fx (((t.1.distance_value : ℕ) : ℝ) / 1000) t.2.1 t.2.2,
                     Fy (((t.1.distance_value : ℕ) : ℝ) / 1000) t.2.1 t.2.2,
                     Fz (((t.1.distance_value : ℕ) : ℝ) / 1000) t.2.1)) := by
  intro chs
  induction chs with
  | nil =>
    intro e a he ha
    have he0 : e = [] := List.length_eq_zero.mp (by simpa using he)
    have ha0 : a = [] := List.length_eq_zero.mp (by simpa using ha)
    subst he0
    subst ha0
    rfl
  | cons c cs ih =>
    intro e a he ha
    match e, a with
    | [], _ => simp at he
    | _ :: _, [] => simp at ha
    | x :: es, y :: as =>
      simp only [List.length_cons] at he ha
      cases hc : (c.distance_value != 0) <;>
        simp [applyMask, List.zipWith3, List.zipWith, List.filter_cons, hc,
          ih es as (by omega) (by omega)]

/-- Aligned filtering of the channel triples has the same length as
filtering the channels themselves. -/
theorem zip3_filter_length :
    ∀ (chs : List ChannelReading) (e a : List ℝ),
      e.length = chs.length → a.length = chs.length →
      ((List.zipWith3 (fun c x y => (c, x, y)) chs e a).filter
          (fun t => t.1.distance_value != 0)).length
        = (chs.filter (fun c => c.distance_value != 0)).length := by
  intro chs
  induction chs with
  | nil =>
    intro e a he ha
    have he0 : e = [] := List.length_eq_zero.mp (by simpa using he)
    have ha0 : a = [] := List.length_eq_zero.mp (by simpa using ha)
    subst he0
    subst ha0
    rfl
  | cons c cs ih =>
    intro e a he ha
    match e, a with
    | [], _ => simp at he
    | _ :: _, [] => simp at ha
    | x :: es, y :: as =>
      simp only [List.length_cons] at he ha
      cases hc : (c.distance_value != 0) <;>
        simp [List.zipWith3, List.filter_cons, hc, ih es as (by omega) (by omega)]

/-- Pythagoras for the source's Cartesian conversion: the reconstructed
point's squared norm is the squared range, exactly. -/
theorem cart_norm_sq (a e d : ℝ) :
    (d * Real.sin e * Real.cos a) ^ 2 + (d * Real.sin e * Real.sin a) ^ 2
      + (d * Real.cos e) ^ 2 = d ^ 2 := by
  have h1 := Real.sin_sq_add_cos_sq a
  have h2 := Real.sin_sq_add_cos_sq e
  linear_combination (d ^ 2 * Real.sin e ^ 2) * h1 + d ^ 2 * h2

/-- The accumulation loop fails whenever some packet of the list fails to
decode (the source has no per-packet exception handling). -/
theorem processPackets_error_of_mem (l : List RawPacket) :
    ∀ (calib : List (List Val)) (acc : List (ℝ × ℝ × ℝ) × List ℕ) (p : RawPacket)
      (e : PipelineError), p ∈ l → p.decodeResult = .error e →
      ∃ e2, processPackets calib l acc = .error e2 := by
  induction l with
  | nil =>
    intro _ _ _ _ h
    exact absurd h (List.not_mem_nil _)
  | cons q rest ih =>
    intro calib acc p e hm hd
    rcases List.mem_cons.mp hm with rfl | hm2
    · exact ⟨e, by simp [processPackets, raw_hesai_to_cartesian,
        HesaiPandar64Packets.from_bytes, hd]⟩
    · match hr : raw_hesai_to_cartesian calib q with
      | .error e3 => exact ⟨e3, by simp [processPackets, hr]⟩
      | .ok none => exact ⟨.noneUnpack, by simp [processPackets, hr]⟩
      | .ok (some pr) =>
        obtain ⟨e2, h2⟩ := ih calib (acc.1 ++ pr.1, acc.2 ++ pr.2) p e hm2 hd
        exact ⟨e2, by simp [processPackets, hr, h2]⟩

/-- C1: evaluation of `raw_hesai_to_cartesian` on a Dual-mode packet with 4
blocks of azimuths 10, 10, 20, 20. The Resolver selects the blocks at
indices 1 and 3, but because the source's `return` statement sits inside the
block loop, only the FIRST selected block (index 1, reflectances 11, 12) is
reconstructed: the output has exactly 2 points and reflectances `[11, 12]`,
with no contribution from block index 3 — contradicting the claim (and the
source's own `Iterate over all blocks` comment) that every selected block
contributes its points. -/
theorem c1_only_first_selected_block :
    selectBlocks dtoC1.tail.return_mode dtoC1.blocks
        = [⟨10, [⟨1000, 11⟩, ⟨2000, 12⟩]⟩, ⟨20, [⟨1000, 31⟩, ⟨2000, 32⟩]⟩] ∧
      raw_hesai_to_cartesian calibTwoRows pktC1
        = .ok (some (processBlock (elevationArray calibTwoRows) (azimuthOffsetArray calibTwoRows)
            ⟨10, [⟨1000, 11⟩, ⟨2000, 12⟩]⟩)) ∧
      (processBlock (elevationArray calibTwoRows) (azimuthOffsetArray calibTwoRows)
          ⟨10, [⟨1000, 11⟩, ⟨2000, 12⟩]⟩).2 = [11, 12] ∧
      (processBlock (elevationArray calibTwoRows) (azimuthOffsetArray calibTwoRows)
          ⟨10, [⟨1000, 11⟩, ⟨2000, 12⟩]⟩).1.length = 2 := by
  have hsel : selectBlocks dtoC1.tail.return_mode dtoC1.blocks
      = [⟨10, [⟨1000, 11⟩, ⟨2000, 12⟩]⟩, ⟨20, [⟨1000, 31⟩, ⟨2000, 32⟩]⟩] := by decide
  refine ⟨hsel, ?_, ?_, ?_⟩
  · simp only [raw_hesai_to_cartesian, HesaiPandar64Packets.from_bytes, pktC1, hsel]
    rw [if_pos (by decide : 2 ≤ calibTwoRows.length ∧ ∀ row ∈ calibTwoRows, 3 ≤ row.length)]
    simp [calibTwoRows]
  · simp [processBlock, applyMask]
  · simp [processBlock, applyMask, elevationArray, azimuthOffsetArray, calibTwoRows,
      List.zipWith3]

/-- C2: end-to-end evaluation of one scan message — calibration rows
(0°, 0°) and (10°, 0°), one Single-mode packet with one block at azimuth 0°
and channel distances (1000 mm, 0 mm) — the pipeline outputs exactly one
point (1, 0, 0) carrying channel 0's reflectance 77, and channel 1 (zero
distance) produces no point. -/
theorem c2_end_to_end :
    export_pointclouds_msg scanC2 = .ok ([((1 : ℝ), 0, 0)], [77]) := by
  have hlast : scanC2.getLast? = some calibPktC2 := by decide
  have hdrop : scanC2.dropLast = [dataPktC2] := by decide
  have hcal : loadCalibration calibPktC2.data = .ok tableC2 := by decide
  have hsel : selectBlocks dtoC2.tail.return_mode dtoC2.blocks
      = [⟨0, [⟨1000, 77⟩, ⟨0, 99⟩]⟩] := by decide
  unfold export_pointclouds_msg
  rw [hlast, hdrop]
  simp only [hcal]
  simp only [processPackets, raw_hesai_to_cartesian, HesaiPandar64Packets.from_bytes,
    dataPktC2, hsel]
  rw [if_pos (by decide : 2 ≤ tableC2.length ∧ ∀ row ∈ tableC2, 3 ≤ row.length)]
  rw [if_pos (by decide : (⟨0, [⟨1000, 77⟩, ⟨0, 99⟩]⟩ : FiringBlock).channel.length
    = tableC2.length)]
  simp [processBlock, applyMask, elevationArray, azimuthOffsetArray, valReal, deg2rad,
    tableC2, List.zipWith3, Real.sin_pi_div_two, Real.cos_pi_div_two]

/-- C3: for a reconstructed block (with the numpy-mandated length alignment
between the calibration-derived angle arrays and the block's channels), the
number of produced points equals the number of channels with nonzero
distance — every zero-distance channel is dropped — and no produced point is
the origin. -/
theorem c3_zero_distance_dropped (elevation_array azimuth_offset_array : List ℝ)
    (block : FiringBlock)
    (he : elevation_array.length = block.channel.length)
    (ha : azimuth_offset_array.length = block.channel.length) :
    (processBlock elevation_array azimuth_offset_array block).1.length
        = (block.channel.filter (fun c => c.distance_value != 0)).length ∧
      ∀ p ∈ (processBlock elevation_array azimuth_offset_array block).1,
        p ≠ ((0 : ℝ), (0 : ℝ), (0 : ℝ)) := by
  have hmap : (azimuth_offset_array.map
      (fun x => x + deg2rad ((block.azimuth_deg : ℚ) : ℝ))).length
        = block.channel.length := by
    simpa using ha
  have hchar := masked_points_char (fun d e a => d * Real.sin e * Real.cos a)
    (fun d e a => d * Real.sin e * Real.sin a) (fun d e => d * Real.cos e)
    block.channel elevation_array
    (azimuth_offset_array.map (fun x => x + deg2rad ((block.azimuth_deg : ℚ) : ℝ)))
    he hmap
  have hpts : (processBlock elevation_array azimuth_offset_array block).1
      = ((List.zipWith3 (fun c x y => (c, x, y)) block.channel elevation_array
            (azimuth_offset_array.map
              (fun x => x + deg2rad ((block.azimuth_deg : ℚ) : ℝ)))).filter
          (fun t => t.1.distance_value != 0)).map
        (fun t => ((((t.1.distance_value : ℕ) : ℝ) / 1000) * Real.sin t.2.1 * Real.cos t.2.2,
                   (((t.1.distance_value : ℕ) : ℝ) / 1000) * Real.sin t.2.1 * Real.sin t.2.2,
                   (((t.1.distance_value : ℕ) : ℝ) / 1000) * Real.cos t.2.1)) := by
    simp only [processBlock]
    exact hchar
  constructor
  · rw [hpts, List.length_map,
      zip3_filter_length block.channel elevation_array _ he hmap]
  · intro p hp
    rw [hpts] at hp
    obtain ⟨t, ht, rfl⟩ := List.mem_map.mp hp
    obtain ⟨-, hpred⟩ := List.mem_filter.mp ht
    have hdnz : t.1.distance_value ≠ 0 := by simpa using hpred
    have hd : ((t.1.distance_value : ℕ) : ℝ) / 1000 ≠ 0 := by
      apply div_ne_zero
      · exact_mod_cast hdnz
      · norm_num
    intro hq
    simp only [Prod.mk.injEq] at hq
    obtain ⟨h1, h2, h3⟩ := hq
    have hns := cart_norm_sq t.2.2 t.2.1 (((t.1.distance_value : ℕ) : ℝ) / 1000)
    rw [h1, h2, h3] at hns
    simp at hns
    exact hd ((pow_eq_zero_iff two_ne_zero).mp hns.symm)

/-- Witness for C3 on a concrete block with channel distances (1000 mm,
0 mm) and a length-2 angle configuration. -/
theorem c3_zero_distance_witness :
    (([0, 0] : List ℝ).length = blockC3.channel.length ∧
        ([0, 0] : List ℝ).length = blockC3.channel.length) ∧
      ((processBlock [0, 0] [0, 0] blockC3).1.length
          = (blockC3.channel.filter (fun c => c.distance_value != 0)).length ∧
        ∀ p ∈ (processBlock [0, 0] [0, 0] blockC3).1,
          p ≠ ((0 : ℝ), (0 : ℝ), (0 : ℝ))) :=
  ⟨⟨rfl, rfl⟩, c3_zero_distance_dropped [0, 0] [0, 0] blockC3 rfl rfl⟩

/-- C4: the Return-Mode Resolver selects exactly the odd-indexed blocks
(indices 1, 3, 5, ...) under the Dual marker 57 — their count is
`⌊n / 2⌋` and the `i`-th selected block is the block at index `2·i + 1` —
and exactly all blocks under any other (Single) marker; in particular a
6-block packet yields 6 selected blocks in Single mode and 3 in Dual mode. -/
theorem c4_resolver_selection :
    (∀ (m : ℕ) (blocks : List FiringBlock), m ≠ 57 → selectBlocks m blocks = blocks) ∧
    (∀ blocks : List FiringBlock, (selectBlocks 57 blocks).length = blocks.length / 2) ∧
    (∀ (blocks : List FiringBlock) (i : ℕ),
      (selectBlocks 57 blocks).get? i = blocks.get? (2 * i + 1)) ∧
    (∀ (m : ℕ) (blocks : List FiringBlock), m ≠ 57 → blocks.length = 6 →
      (selectBlocks m blocks).length = 6 ∧ (selectBlocks 57 blocks).length = 3) := by
  refine ⟨fun m blocks h => selectBlocks_not57 h blocks, selectBlocks_57_length,
    selectBlocks_57_get, ?_⟩
  intro m blocks hm h6
  constructor
  · rw [selectBlocks_not57 hm, h6]
  · rw [selectBlocks_57_length, h6]

/-- Witness for C4 on a concrete six-block packet body with the Single
marker 55. -/
theorem c4_resolver_selection_witness :
    (55 : ℕ) ≠ 57 ∧ sixBlocks.length = 6 ∧
      ((selectBlocks 55 sixBlocks).length = 6 ∧ (selectBlocks 57 sixBlocks).length = 3) :=
  ⟨by decide, by decide, c4_resolver_selection.2.2.2 55 sixBlocks (by decide) (by decide)⟩

/-- C5 counterexample: a scan message holding a malformed packet, then a
valid packet, then the calibration packet does NOT reach `Assembled` with
the valid packet's points: the decode failure propagates out of the scan
message's processing (the source has no try/except around packets), so the
whole message fails with `MalformedPacketError`. -/
theorem c5_counterexample :
    export_pointclouds_msg scanC5 = .error .malformedPacket := by
  have hlast : scanC5.getLast? = some calibPktC5 := by decide
  have hdrop : scanC5.dropLast = [malformedPktC5, goodPktC5] := by decide
  have hcal : loadCalibration calibPktC5.data =
      .ok [[Val.num 0 0, Val.num 0 0, Val.num 0 0],
           [Val.num 1 0, Val.num 1 0, Val.num 0 0]] := by
    decide
  unfold export_pointclouds_msg
  rw [hlast, hdrop]
  simp only [hcal]
  simp [processPackets, raw_hesai_to_cartesian, HesaiPandar64Packets.from_bytes, malformedPktC5]

/-- C5 amended: a malformed packet among a scan message's leading packets
makes the WHOLE scan message's processing fail (some error is raised and
`Assembled` is never reached); the remaining packets' points are not
collected. -/
theorem c5_malformed_packet_aborts_scan (packets : List RawPacket) (p : RawPacket)
    (e : PipelineError) (hp : p ∈ packets.dropLast) (hd : p.decodeResult = .error e) :
    ∃ e2, export_pointclouds_msg packets = .error e2 := by
  unfold export_pointclouds_msg
  cases hlast : packets.getLast? with
  | none => exact ⟨.indexError, rfl⟩
  | some lp =>
    show ∃ e2, (match loadCalibration lp.data with
      | Except.error e4 => Except.error e4
      | Except.ok calibration_array =>
          processPackets calibration_array packets.dropLast ([], [])) = Except.error e2
    cases hcal : loadCalibration lp.data with
    | error e3 => exact ⟨e3, rfl⟩
    | ok table => exact processPackets_error_of_mem packets.dropLast table ([], []) p e hp hd

/-- Witness for the amended C5 on the concrete malformed-plus-valid scan
message. -/
theorem c5_malformed_witness :
    (malformedPktC5 ∈ scanC5.dropLast ∧
        malformedPktC5.decodeResult = .error .malformedPacket) ∧
      ∃ e2, export_pointclouds_msg scanC5 = .error e2 :=
  ⟨⟨by decide, rfl⟩,
    c5_malformed_packet_aborts_scan scanC5 malformedPktC5 .malformedPacket (by decide) rfl⟩

/-- C6: for every azimuth, elevation and nonzero distance, the point built
by `polar_to_cartesian` satisfies x² + y² + z² = distance² exactly (the
model idealises floats as reals), hence in particular within the claimed
1e-6 relative tolerance. -/
theorem c6_range_preserved (azimuth elevation distance : ℝ) (h : distance ≠ 0) :
    ((polar_to_cartesian azimuth elevation distance).1 ^ 2
        + (polar_to_cartesian azimuth elevation distance).2.1 ^ 2
        + (polar_to_cartesian azimuth elevation distance).2.2 ^ 2 = distance ^ 2) ∧
      |(polar_to_cartesian azimuth elevation distance).1 ^ 2
          + (polar_to_cartesian azimuth elevation distance).2.1 ^ 2
          + (polar_to_cartesian azimuth elevation distance).2.2 ^ 2 - distance ^ 2|
        ≤ (1 / 1000000) * distance ^ 2 := by
  have hk := cart_norm_sq azimuth (Real.pi / 2 - elevation) distance
  have e1 : (polar_to_cartesian azimuth elevation distance).1 ^ 2
      + (polar_to_cartesian azimuth elevation distance).2.1 ^ 2
      + (polar_to_cartesian azimuth elevation distance).2.2 ^ 2 = distance ^ 2 := by
    simpa [polar_to_cartesian] using hk
  refine ⟨e1, ?_⟩
  rw [e1, sub_self, abs_zero]
  positivity

/-- Witness for C6 at azimuth 0, elevation 0, distance 2. -/
theorem c6_range_preserved_witness :
    (2 : ℝ) ≠ 0 ∧
      (((polar_to_cartesian 0 0 2).1 ^ 2 + (polar_to_cartesian 0 0 2).2.1 ^ 2
          + (polar_to_cartesian 0 0 2).2.2 ^ 2 = (2 : ℝ) ^ 2) ∧
        |(polar_to_cartesian 0 0 2).1 ^ 2 + (polar_to_cartesian 0 0 2).2.1 ^ 2
            + (polar_to_cartesian 0 0 2).2.2 ^ 2 - (2 : ℝ) ^ 2|
          ≤ (1 / 1000000) * (2 : ℝ) ^ 2) :=
  ⟨by norm_num, c6_range_preserved 0 0 2 (by norm_num)⟩

/-- C7 counterexample: on a concrete packet whose return-mode marker 99 is
neither a Single value nor the Dual value 57, the code does process it as
Single (all blocks selected, reconstruction succeeds), but the warning
stream is EMPTY — no warning is flagged, refuting that conjunct of the
claim. -/
theorem c7_counterexample :
    rawHesaiWarnings calibTwoRows pktC7 = [] ∧
      selectBlocks dtoC7.tail.return_mode dtoC7.blocks = dtoC7.blocks ∧
      raw_hesai_to_cartesian calibTwoRows pktC7 =
        .ok (some (processBlock (elevationArray calibTwoRows) (azimuthOffsetArray calibTwoRows)
          ⟨10, [⟨1000, 3⟩, ⟨0, 4⟩]⟩)) := by
  refine ⟨rfl, by decide, ?_⟩
  have hsel : selectBlocks dtoC7.tail.return_mode dtoC7.blocks = dtoC7.blocks := by decide
  simp only [raw_hesai_to_cartesian, HesaiPandar64Packets.from_bytes, pktC7, hsel]
  rw [if_pos (by decide : 2 ≤ calibTwoRows.length ∧ ∀ row ∈ calibTwoRows, 3 ≤ row.length)]
  simp [dtoC7, calibTwoRows]

/-- C7 amended: a packet whose return-mode marker is neither the Single nor
the Dual value is processed exactly as if in Single mode — all blocks
selected with stride 1 from index 0, and the reconstruction result is
identical to the same packet carrying the Single marker 55 — and the unknown
marker never aborts processing; however, NO warning is flagged (the source
emits none). -/
theorem c7_unknown_mode_as_single (calib : List (List Val)) (p : RawPacket)
    (dto : HesaiPandar64Packets) (hd : p.decodeResult = .ok dto)
    (hm : dto.tail.return_mode ≠ 57) :
    selectBlocks dto.tail.return_mode dto.blocks = dto.blocks ∧
      raw_hesai_to_cartesian calib p
        = raw_hesai_to_cartesian calib ⟨.ok ⟨dto.blocks, ⟨55⟩⟩, p.data⟩ ∧
      rawHesaiWarnings calib p = [] := by
  refine ⟨selectBlocks_not57 hm dto.blocks, ?_, rfl⟩
  simp only [raw_hesai_to_cartesian, HesaiPandar64Packets.from_bytes, hd]
  rw [selectBlocks_not57 hm, selectBlocks_not57 (by decide : (55 : ℕ) ≠ 57)]

/-- Witness for the amended C7 on the concrete marker-99 packet. -/
theorem c7_unknown_mode_witness :
    (pktC7.decodeResult = .ok dtoC7 ∧ dtoC7.tail.return_mode ≠ 57) ∧
      (selectBlocks dtoC7.tail.return_mode dtoC7.blocks = dtoC7.blocks ∧
        raw_hesai_to_cartesian calibTwoRows pktC7
          = raw_hesai_to_cartesian calibTwoRows ⟨.ok ⟨dtoC7.blocks, ⟨55⟩⟩, pktC7.data⟩ ∧
        rawHesaiWarnings calibTwoRows pktC7 = []) :=
  ⟨⟨rfl, by decide⟩, c7_unknown_mode_as_single calibTwoRows pktC7 dtoC7 rfl (by decide)⟩

/-- C8 counterexample: a calibration payload whose data rows uniformly have
2 (< 3) comma-separated fields is ACCEPTED by the loader — `np.genfromtxt`
only rejects rows whose field count differs from the first row's — refuting
the claim that a row with fewer than 3 fields triggers
`CalibrationFormatError`. -/
theorem c8_counterexample :
    loadCalibration shortRowsPayload
      = .ok [[Val.num 1 0, Val.num 2 0], [Val.num 3 0, Val.num 4 0]] := by decide

/-- C8 amended: the Calibration Table Loader fails — and then necessarily
with `CalibrationFormatError` — exactly when the payload after the 8-byte
skip is not decodable as UTF-8, or some data row's comma-field count differs
from the FIRST data row's; a table whose rows are uniformly shorter than 3
fields is accepted by the loader (its missing columns only surface later as
an indexing failure in the reconstruction step). -/
theorem c8_failure_characterisation (data : List Nat) :
    (loadCalibration data = .error .calibrationFormat ↔
      utf8Decode (data.drop 8) = none ∨
        ∃ text r0 rest, utf8Decode (data.drop 8) = some text ∧
          (genfromtxtRows text).map (fun line => (splitOnChar ',' line).map parseFloat)
              = r0 :: rest ∧
          ¬ ∀ r ∈ rest, r.length = r0.length) ∧
    ∀ e, loadCalibration data = .error e → e = .calibrationFormat := by
  cases hu : utf8Decode (data.drop 8) with
  | none =>
    have hload : loadCalibration data = .error .calibrationFormat := by
      unfold loadCalibration
      rw [hu]
    refine ⟨by simp [hload], ?_⟩
    intro e he
    rw [hload] at he
    exact (Except.error.inj he.symm)
  | some text =>
    have hload : loadCalibration data = genfromtxtTable text := by
      unfold loadCalibration
      rw [hu]
    rw [hload]
    cases hrows : (genfromtxtRows text).map
        (fun line => (splitOnChar ',' line).map parseFloat) with
    | nil =>
      have htab : genfromtxtTable text = .ok [] := by
        simp only [genfromtxtTable]
        rw [hrows]
      rw [htab]
      refine ⟨⟨fun h => Except.noConfusion h, ?_⟩, fun e he => Except.noConfusion he⟩
      rintro (h | ⟨text2, r0, rest, ht2, hr2, hbad⟩)
      · exact Option.noConfusion h
      · rw [Option.some.inj ht2] at hrows
        rw [hrows] at hr2
        exact List.noConfusion hr2
    | cons r0 rest =>
      by_cases hall : ∀ r ∈ rest, r.length = r0.length
      · have hb : rest.all (fun r => r.length == r0.length) = true := by
          rw [List.all_eq_true]
          intro r hr
          exact beq_iff_eq.mpr (hall r hr)
        have htab : genfromtxtTable text = .ok (r0 :: rest) := by
          simp only [genfromtxtTable]
          rw [hrows]
          simp [hb]
        rw [htab]
        refine ⟨⟨fun h => Except.noConfusion h, ?_⟩, fun e he => Except.noConfusion he⟩
        rintro (h | ⟨text2, r02, rest2, ht2, hr2, hbad⟩)
        · exact Option.noConfusion h
        · rw [Option.some.inj ht2] at hrows
          rw [hrows] at hr2
          obtain ⟨rfl, rfl⟩ : r02 = r0 ∧ rest2 = rest :=
            ⟨(List.cons.inj hr2.symm).1, (List.cons.inj hr2.symm).2⟩
          exact absurd hall hbad
      · have hb : rest.all (fun r => r.length == r0.length) = false := by
          rw [List.all_eq_false]
          push_neg at hall
          obtain ⟨r, hr, hne⟩ := hall
          exact ⟨r, hr, by simpa using hne⟩
        have htab : genfromtxtTable text = .error .calibrationFormat := by
          simp only [genfromtxtTable]
          rw [hrows]
          simp [hb]
        rw [htab]
        exact ⟨⟨fun _ => Or.inr ⟨text, r0, rest, rfl, hrows, hall⟩, fun _ => rfl⟩,
          fun e he => (Except.error.inj he).symm⟩

/-- Witness for the amended C8 on a payload with an invalid UTF-8 byte. -/
theorem c8_failure_characterisation_witness :
    loadCalibration badUtf8Payload = .error .calibrationFormat ∧
      PipelineError.calibrationFormat = .calibrationFormat :=
  ⟨by decide, (c8_failure_characterisation badUtf8Payload).2 _ (by decide)⟩

/-- C9: calibration parsing is deterministic — parsing the same payload
twice yields tables that are equal as values. -/
theorem c9_parse_deterministic (payload : List Nat) (t1 t2 : List (List Val))
    (h1 : loadCalibration payload = .ok t1) (h2 : loadCalibration payload = .ok t2) :
    t1 = t2 := by
  rw [h1] at h2
  exact Except.ok.inj h2

/-- Witness for C9 on a concrete payload and its parsed table. -/
theorem c9_parse_deterministic_witness :
    loadCalibration calibPayloadC9 = .ok tableC9 ∧ tableC9 = tableC9 :=
  ⟨by decide, c9_parse_deterministic calibPayloadC9 tableC9 tableC9 (by decide) (by decide)⟩

/-- C10: whenever the selected block subsequence is empty (e.g. a Dual-mode
packet with a single block), `raw_hesai_to_cartesian` returns `none` — the
Python function falls off the loop and implicitly returns `None`, not an
empty pair of arrays — and the caller's accumulation step consequently
never receives empty arrays for such a packet (it fails on the unpacking
instead). -/
theorem c10_empty_selection_returns_none (calib : List (List Val)) (p : RawPacket)
    (dto : HesaiPandar64Packets) (hd : p.decodeResult = .ok dto)
    (hwf : 2 ≤ calib.length ∧ ∀ row ∈ calib, 3 ≤ row.length)
    (hsel : selectBlocks dto.tail.return_mode dto.blocks = []) :
    raw_hesai_to_cartesian calib p = .ok none ∧
      processPackets calib [p] ([], []) = .error .noneUnpack := by
  have h1 : raw_hesai_to_cartesian calib p = .ok none := by
    simp only [raw_hesai_to_cartesian, HesaiPandar64Packets.from_bytes, hd, hsel]
    rw [if_pos hwf]
  exact ⟨h1, by simp [processPackets, h1]⟩

/-- Witness for C10 on the concrete one-block Dual packet. -/
theorem c10_empty_selection_witness :
    (dualOneBlockPkt.decodeResult = .ok dualOneBlockDto ∧
        (2 ≤ calibTwoRows.length ∧ ∀ row ∈ calibTwoRows, 3 ≤ row.length) ∧
        selectBlocks dualOneBlockDto.tail.return_mode dualOneBlockDto.blocks = []) ∧
      (raw_hesai_to_cartesian calibTwoRows dualOneBlockPkt = .ok none ∧
        processPackets calibTwoRows [dualOneBlockPkt] ([], []) = .error .noneUnpack) :=
  ⟨⟨rfl, ⟨by decide, by decide⟩, by decide⟩,
    c10_empty_selection_returns_none calibTwoRows dualOneBlockPkt dualOneBlockDto rfl
      ⟨by decide, by decide⟩ (by decide)⟩
